import Mathlib

/-!
Shallow embedding of the cyber-fraud chatbot evaluation pipeline
(`domain_weighted_evaluation.py`, `standard_cosine_evaluation.py`,
`core_performance_analysis.py`) together with proofs about its
specified behaviour.  Machine floats are modelled by exact arithmetic:
`ℚ` where the code manipulates finite score lists, `ℝ` where it takes
square roots, logarithms or cosine similarities.  The sentence-embedding
model and the phone-number regular expressions are external effects and
enter as explicit function parameters.
-/

namespace CyberFraudEval

/-! ### String utilities

Python's `needle in hay` substring test and `str.lower`, modelled on the
character list underlying a `String`. -/

/-- Does `hay` begin with `needle`?  (list-of-characters version) -/
def charsStartWith : List Char → List Char → Bool
  | [], _ => true
  | _ :: _, [] => false
  | a :: as, b :: bs => a == b && charsStartWith as bs

/-- Does `needle` occur contiguously anywhere inside `hay`? -/
def charsOccur (needle : List Char) : List Char → Bool
  | [] => charsStartWith needle []
  | b :: bs => charsStartWith needle (b :: bs) || charsOccur needle bs

/-- Python's `needle in hay` substring containment on strings. -/
def strContains (hay needle : String) : Bool :=
  charsOccur needle.data hay.data

/-- Python's `str.lower` (the vocabulary in this code base is ASCII). -/
def strLower (s : String) : String :=
  ⟨s.data.map Char.toLower⟩

/-! ### Critical entities (`DomainWeightedEvaluator._define_critical_entities`,
`extract_entities`, `calculate_entity_accuracy`) -/

/-- An entity dictionary: one set of matched canonical strings per category,
mirroring the `{'phone_numbers': …, 'organizations': …, 'procedures': …}`
dictionaries of the Python code. -/
structure EntitySet where
  phone_numbers : Finset String
  organizations : Finset String
  procedures : Finset String
deriving DecidableEq

/-- Per-category accuracy scores, the result of `calculate_entity_accuracy`. -/
structure EntityScores where
  phone_numbers : ℚ
  organizations : ℚ
  procedures : ℚ
deriving DecidableEq

/-- The fixed `organizations` vocabulary of `_define_critical_entities`. -/
def critical_entities_organizations : Finset String :=
  {"action fraud", "fca", "ncsc", "psr", "samaritans", "victim support"}

/-- The fixed `procedures` vocabulary of `_define_critical_entities`. -/
def critical_entities_procedures : Finset String :=
  {"app code", "authorised push payment", "payment services regulations"}

/-- `extract_entities`: organisations and procedures are literal substring
matches of the lowercased text against the fixed vocabulary; the
phone-number category is produced by the regex engine, which enters as the
parameter `extractPhones` (applied, as in the code, to the lowercased text). -/
def extract_entities (extractPhones : String → Finset String) (text : String) :
    EntitySet :=
  let text_lower := strLower text
  { phone_numbers := extractPhones text_lower
    organizations :=
      critical_entities_organizations.filter
        (fun term => strContains text_lower term)
    procedures :=
      critical_entities_procedures.filter
        (fun term => strContains text_lower term) }

/-- The per-category body of `calculate_entity_accuracy`: score `1.0` when the
reference set is empty, `0.0` when the response set is empty, otherwise
`|response ∩ reference| / |reference|`. -/
def entity_accuracy_cat (response_set reference_set : Finset String) : ℚ :=
  if reference_set = ∅ then 1
  else if response_set = ∅ then 0
  else ((response_set ∩ reference_set).card : ℚ) / (reference_set.card : ℚ)

/-- `calculate_entity_accuracy`: the per-category score for each of the three
fixed categories. -/
def calculate_entity_accuracy (response_entities reference_entities : EntitySet) :
    EntityScores :=
  { phone_numbers :=
      entity_accuracy_cat response_entities.phone_numbers
        reference_entities.phone_numbers
    organizations :=
      entity_accuracy_cat response_entities.organizations
        reference_entities.organizations
    procedures :=
      entity_accuracy_cat response_entities.procedures
        reference_entities.procedures }

/-! ### Domain weights (`_create_domain_weights`, `apply_domain_weights`) -/

/-- The `DomainWeights` dataclass: five fixed term-weight tables. -/
structure DomainWeights where
  critical_contacts : List (String × ℚ)
  fraud_types : List (String × ℚ)
  regulatory_terms : List (String × ℚ)
  empathy_markers : List (String × ℚ)
  action_words : List (String × ℚ)

/-- The fixed weight tables returned by `_create_domain_weights`. -/
def domain_weights : DomainWeights :=
  { critical_contacts :=
      [("0300 123 2040", 5.0), ("action fraud", 4.0), ("999", 4.0),
       ("101", 3.0), ("0800 111 6768", 3.5), ("116 123", 3.0)]
    fraud_types :=
      [("app fraud", 3.0), ("authorised push payment", 3.0), ("vishing", 2.5),
       ("voice phishing", 2.5), ("romance scam", 2.5), ("romance fraud", 2.5),
       ("investment fraud", 2.5), ("purchase fraud", 2.0), ("identity theft", 2.0)]
    regulatory_terms :=
      [("psr", 3.0), ("fca", 2.5), ("ncsc", 2.0), ("app code", 2.5),
       ("payment services regulations", 2.5), ("financial conduct authority", 2.5)]
    empathy_markers :=
      [("not your fault", 2.5), ("understandable", 2.0),
       ("don't blame yourself", 2.5), ("not to blame", 2.5),
       ("these criminals", 2.0), ("you're not alone", 2.0)]
    action_words :=
      [("immediately", 2.0), ("report", 2.0), ("contact", 2.0),
       ("never", 2.0), ("stop", 2.0), ("hang up", 2.5)] }

/-- The merged `all_weights` dictionary built in `apply_domain_weights`.  The
keys of the five tables are pairwise distinct, so the successive
`dict.update` calls amount to concatenation. -/
def all_weights : List (String × ℚ) :=
  domain_weights.critical_contacts ++ domain_weights.fraud_types ++
    domain_weights.regulatory_terms ++ domain_weights.empathy_markers ++
    domain_weights.action_words

/-- The `importance_score` accumulated in `apply_domain_weights`: the sum of
the weights of every domain term occurring in the lowercased text. -/
def importance_score (text : String) : ℚ :=
  (all_weights.map
    (fun p => if strContains (strLower text) p.1 then p.2 else 0)).sum

/-- The logarithmic `weight_multiplier = 1 + log(1 + importance_score * 0.1)`
of `apply_domain_weights`, as a function of the importance score. -/
noncomputable def weight_multiplier (s : ℝ) : ℝ :=
  1 + Real.log (1 + s * 0.1)

/-! ### Embedding vectors and cosine similarity

`sklearn.metrics.pairwise.cosine_similarity` on two single-row matrices, in
exact real arithmetic. -/

/-- Euclidean dot product on `n`-dimensional embedding vectors. -/
def dotProd {n : ℕ} (u v : Fin n → ℝ) : ℝ := ∑ i, u i * v i

/-- Euclidean norm. -/
noncomputable def vecNorm {n : ℕ} (u : Fin n → ℝ) : ℝ :=
  Real.sqrt (dotProd u u)

/-- Cosine similarity of two embedding vectors. -/
noncomputable def cosine_similarity {n : ℕ} (u v : Fin n → ℝ) : ℝ :=
  dotProd u v / (vecNorm u * vecNorm v)

/-- `apply_domain_weights`: the base embedding of the text (produced by the
sentence-embedding model `encode`) scaled elementwise by the weight
multiplier of the text's importance score. -/
noncomputable def apply_domain_weights {n : ℕ} (encode : String → Fin n → ℝ)
    (text : String) : Fin n → ℝ :=
  fun i => weight_multiplier ((importance_score text : ℚ) : ℝ) * encode text i

/-! ### The domain-weighted evaluator (`evaluate_response_pair`,
`find_best_reference_match`, `run_evaluation`, `_calculate_summary_statistics`) -/

/-- One reference ground-truth Q&A pair. -/
structure QAPair where
  instruction : String
  output : String

/-- One record of the evaluation-question set (`Models_Responses.json`). -/
structure EvalItem where
  question_no : String
  category : String
  question : String
  BM : String
  FM : String

/-- The dictionary returned by `evaluate_response_pair` (score fields and the
extracted entity dictionaries; the echoed response strings are carried by
`ResultRecord` below). -/
structure PairEval where
  baseline_semantic : ℝ
  finetuned_semantic : ℝ
  baseline_entity : ℝ
  finetuned_entity : ℝ
  baseline_composite : ℝ
  finetuned_composite : ℝ
  improvement : ℝ
  semantic_improvement : ℝ
  entity_improvement : ℝ
  baseline_entities : EntitySet
  finetuned_entities : EntitySet
  reference_entities : EntitySet

/-- `evaluate_response_pair`: domain-weighted cosine similarity, entity
accuracy (averaged over the three categories), and their 60/40 composite,
for the baseline and fine-tuned responses against one reference response. -/
noncomputable def evaluate_response_pair {n : ℕ} (encode : String → Fin n → ℝ)
    (extractPhones : String → Finset String)
    (baseline_response finetuned_response reference_response : String) :
    PairEval :=
  let ref_embedding := apply_domain_weights encode reference_response
  let bm_embedding := apply_domain_weights encode baseline_response
  let fm_embedding := apply_domain_weights encode finetuned_response
  let bm_similarity := cosine_similarity bm_embedding ref_embedding
  let fm_similarity := cosine_similarity fm_embedding ref_embedding
  let ref_entities := extract_entities extractPhones reference_response
  let bm_entities := extract_entities extractPhones baseline_response
  let fm_entities := extract_entities extractPhones finetuned_response
  let bm_entity_scores := calculate_entity_accuracy bm_entities ref_entities
  let fm_entity_scores := calculate_entity_accuracy fm_entities ref_entities
  let bm_entity_avg : ℚ :=
    (bm_entity_scores.phone_numbers + bm_entity_scores.organizations +
      bm_entity_scores.procedures) / 3
  let fm_entity_avg : ℚ :=
    (fm_entity_scores.phone_numbers + fm_entity_scores.organizations +
      fm_entity_scores.procedures) / 3
  let bm_composite : ℝ := 0.6 * bm_similarity + 0.4 * (bm_entity_avg : ℝ)
  let fm_composite : ℝ := 0.6 * fm_similarity + 0.4 * (fm_entity_avg : ℝ)
  { baseline_semantic := bm_similarity
    finetuned_semantic := fm_similarity
    baseline_entity := (bm_entity_avg : ℝ)
    finetuned_entity := (fm_entity_avg : ℝ)
    baseline_composite := bm_composite
    finetuned_composite := fm_composite
    improvement := fm_composite - bm_composite
    semantic_improvement := fm_similarity - bm_similarity
    entity_improvement := (fm_entity_avg : ℝ) - (bm_entity_avg : ℝ)
    baseline_entities := bm_entities
    finetuned_entities := fm_entities
    reference_entities := ref_entities }

/-- The fold of `find_best_reference_match`: the running
`(best_match, best_score)` pair, initialised at `("", 0)` and replaced only
on a strictly greater similarity of the question to a reference instruction. -/
noncomputable def findBestAux {n : ℕ} (encode : String → Fin n → ℝ)
    (question : String) (ground_truth : List QAPair) : String × ℝ :=
  ground_truth.foldl
    (fun acc item =>
      if acc.2 < cosine_similarity (encode question) (encode item.instruction)
      then (item.output,
        cosine_similarity (encode question) (encode item.instruction))
      else acc)
    ("", 0)

/-- `find_best_reference_match` returns only the best-matching output text. -/
noncomputable def find_best_reference_match {n : ℕ}
    (encode : String → Fin n → ℝ) (question : String)
    (ground_truth : List QAPair) : String :=
  (findBestAux encode question ground_truth).1

/-- One element of the `results` list built by `run_evaluation`: the
`evaluate_response_pair` scores plus the metadata merged in afterwards. -/
structure ResultRecord where
  scores : PairEval
  question_id : String
  category : String
  question : String
  baseline_response : String
  finetuned_response : String
  reference_response : String

/-- The per-question record appended by `run_evaluation`. -/
noncomputable def mkResultRecord {n : ℕ} (encode : String → Fin n → ℝ)
    (extractPhones : String → Finset String) (item : EvalItem)
    (reference_response : String) : ResultRecord :=
  { scores :=
      evaluate_response_pair encode extractPhones item.BM item.FM
        reference_response
    question_id := item.question_no
    category := item.category
    question := item.question
    baseline_response := item.BM
    finetuned_response := item.FM
    reference_response := reference_response }

/-- The main loop of `run_evaluation`: for each evaluation item, find the
best reference; when it is the empty string, log a warning and `continue`
(no record is appended), otherwise append the evaluated record. -/
noncomputable def run_evaluation {n : ℕ} (encode : String → Fin n → ℝ)
    (extractPhones : String → Finset String) :
    List EvalItem → List QAPair → List ResultRecord
  | [], _ => []
  | item :: rest, ground_truth =>
    let reference_response :=
      find_best_reference_match encode item.question ground_truth
    if reference_response = "" then
      run_evaluation encode extractPhones rest ground_truth
    else
      mkResultRecord encode extractPhones item reference_response ::
        run_evaluation encode extractPhones rest ground_truth

/-! ### Summary statistics -/

/-- `np.mean` of a list of exact scores. -/
def listMean (xs : List ℚ) : ℚ := xs.sum / xs.length

/-- `np.std(xs)**2` with the numpy default `ddof = 0` (population variance). -/
def listVarPop (xs : List ℚ) : ℚ :=
  ((xs.map (fun x => (x - listMean xs) ^ 2)).sum) / xs.length

/-- `np.std` (population standard deviation). -/
noncomputable def listStd (xs : List ℚ) : ℝ :=
  Real.sqrt ((listVarPop xs : ℚ) : ℝ)

/-- The pooled standard deviation of `_calculate_summary_statistics`:
`sqrt((std_baseline² + std_finetuned²) / 2)`. -/
noncomputable def pooled_std (bm fm : List ℚ) : ℝ :=
  Real.sqrt ((listStd bm ^ 2 + listStd fm ^ 2) / 2)

/-- Cohen's d as computed by `_calculate_summary_statistics`:
`(mean(finetuned) - mean(baseline)) / pooled_std`. -/
noncomputable def cohens_d (bm fm : List ℚ) : ℝ :=
  ((listMean fm - listMean bm : ℚ) : ℝ) / pooled_std bm fm

/-- The effect-size label of `_calculate_summary_statistics`:
`'large' if abs(d) > 0.8 else 'medium' if abs(d) > 0.5 else 'small'`. -/
noncomputable def effect_size_label (d : ℝ) : String :=
  if |d| > 0.8 then "large" else if |d| > 0.5 then "medium" else "small"

/-- `improvement_consistency` of the domain-weighted evaluator:
`np.sum(improvements > 0) / len(improvements)`. -/
def improvement_consistency (improvements : List ℚ) : ℚ :=
  ((improvements.countP (fun x => decide (0 < x)) : ℚ)) /
    (improvements.length : ℚ)

/-! ### The standard cosine evaluator (`standard_cosine_evaluation.py`) -/

/-- The category-bucket dictionary built by `_organize_by_categories`: it
always holds exactly these five keys. -/
structure FraudCategories where
  uk_knowledge : List String
  conversational_quality : List String
  fraud_typology : List String
  professional_boundaries : List String
  general : List String

/-- Python `dict` lookup `fraud_categories[key]` on the five fixed keys. -/
def FraudCategories.find? (fc : FraudCategories) : String → Option (List String)
  | "uk_knowledge" => some fc.uk_knowledge
  | "conversational_quality" => some fc.conversational_quality
  | "fraud_typology" => some fc.fraud_typology
  | "professional_boundaries" => some fc.professional_boundaries
  | "general" => some fc.general
  | _ => none

/-- `self.fraud_categories.get(key, self.fraud_categories['general'])`:
the bucket stored under `key`, defaulting to the `general` bucket only when
`key` is absent from the dictionary. -/
def FraudCategories.getD (fc : FraudCategories) (key : String) : List String :=
  (fc.find? key).getD fc.general

/-- `np.max` of a nonempty similarity list (`0` for the empty list, which the
code never reaches). -/
def listMaxQ : List ℚ → ℚ
  | [] => 0
  | x :: xs => xs.foldl max x

/-- `np.argmax`: index of the first occurrence of the maximum. -/
def argmaxFirst (xs : List ℚ) : ℕ :=
  xs.findIdx (fun s => s == listMaxQ xs)

/-- The dictionary returned by `evaluate_response_alignment`.  The empty-bucket
branch returns no `best_reference_idx` key (`none` here) and logs a warning,
recorded by the `warning` flag. -/
structure AlignmentScores where
  best_match_score : ℚ
  average_alignment : ℚ
  source_coverage : ℕ
  best_reference_idx : Option ℕ
  warning : Bool
deriving DecidableEq

/-- `evaluate_response_alignment`: look the category bucket up with a
`general` default, return all-zero scores plus a warning when the chosen
bucket is empty, otherwise best-match / mean / count-above-0.7 / argmax of
the cosine similarities of the response to every bucket reference.  The
embedding model and cosine step enter as the similarity function `sim`. -/
def evaluate_response_alignment (sim : String → String → ℚ)
    (fc : FraudCategories) (response : String) (fraud_category : String) :
    AlignmentScores :=
  let relevant_sources := fc.getD fraud_category
  if relevant_sources.isEmpty then
    { best_match_score := 0, average_alignment := 0, source_coverage := 0,
      best_reference_idx := none, warning := true }
  else
    let similarities := relevant_sources.map (fun src => sim response src)
    { best_match_score := listMaxQ similarities
      average_alignment := similarities.sum / (similarities.length : ℚ)
      source_coverage := similarities.countP (fun s => decide ((7 : ℚ) / 10 < s))
      best_reference_idx := some (argmaxFirst similarities)
      warning := false }

/-- `_determine_category_mapping`: case-insensitive substring rules tried in
a fixed order, first match wins, defaulting to `general`. -/
def determine_category_mapping (evaluation_category : String) : String :=
  let category_lower := strLower evaluation_category
  if strContains category_lower "uk-specific knowledge" then "uk_knowledge"
  else if strContains category_lower "conversational quality" then
    "conversational_quality"
  else if strContains category_lower "cyber fraud typology" then
    "fraud_typology"
  else if strContains category_lower "professional boundaries" then
    "professional_boundaries"
  else "general"

/-- The `EvaluationResult` dataclass of `standard_cosine_evaluation.py`. -/
structure EvaluationResult where
  question_id : String
  category : String
  question : String
  baseline_response : String
  finetuned_response : String
  baseline_best_match : ℚ
  baseline_avg_alignment : ℚ
  finetuned_best_match : ℚ
  finetuned_avg_alignment : ℚ
  best_match_improvement : ℚ
  avg_alignment_improvement : ℚ
  best_reference_match : String

/-- Python `best_reference[:200] + "..." if len(best_reference) > 200 else
best_reference`. -/
def truncateReference (best_reference : String) : String :=
  if 200 < best_reference.data.length then
    ⟨best_reference.data.take 200⟩ ++ "..."
  else best_reference

/-- The per-item body of `run_comprehensive_evaluation`: map the category
label, score both responses against the mapped bucket, recover the
fine-tuned best reference, and assemble the `EvaluationResult` with the two
improvement fields computed as fine-tuned minus baseline. -/
def evaluateItemStandard (sim : String → String → ℚ) (fc : FraudCategories)
    (item : EvalItem) : EvaluationResult :=
  let gt_category := determine_category_mapping item.category
  let baseline_scores := evaluate_response_alignment sim fc item.BM gt_category
  let finetuned_scores := evaluate_response_alignment sim fc item.FM gt_category
  let relevant_sources := fc.getD gt_category
  let best_ref_idx := finetuned_scores.best_reference_idx.getD 0
  let best_reference :=
    if relevant_sources.isEmpty then "" else relevant_sources.getD best_ref_idx ""
  { question_id := item.question_no
    category := item.category
    question := item.question
    baseline_response := item.BM
    finetuned_response := item.FM
    baseline_best_match := baseline_scores.best_match_score
    baseline_avg_alignment := baseline_scores.average_alignment
    finetuned_best_match := finetuned_scores.best_match_score
    finetuned_avg_alignment := finetuned_scores.average_alignment
    best_match_improvement :=
      finetuned_scores.best_match_score - baseline_scores.best_match_score
    avg_alignment_improvement :=
      finetuned_scores.average_alignment - baseline_scores.average_alignment
    best_reference_match := truncateReference best_reference }

/-! ### The manual-grading analyzer (`core_performance_analysis.py`) -/

/-- The per-question, per-dimension row computed by `process_data`: a
`[baseline, finetuned]` score pair becomes missing (`None`, pandas `NaN`)
when both scores equal the sentinel `0`; the improvement is fine-tuned minus
baseline when the baseline is present; the percentage improvement exists
only for a strictly positive baseline. -/
structure DimRow where
  baseline : Option ℚ
  finetuned : Option ℚ
  improvement : Option ℚ
  improvementPct : Option ℚ
deriving DecidableEq

/-- The body of the `process_data` loop for one score pair. -/
def processRow (baseline_score finetuned_score : ℚ) : DimRow :=
  if baseline_score = 0 ∧ finetuned_score = 0 then
    { baseline := none, finetuned := none, improvement := none,
      improvementPct := none }
  else
    { baseline := some baseline_score
      finetuned := some finetuned_score
      improvement := some (finetuned_score - baseline_score)
      improvementPct :=
        if 0 < baseline_score then
          some ((finetuned_score - baseline_score) / baseline_score * 100)
        else none }

/-- The baseline column of one dimension over the whole question list. -/
def baselineCol (data : List (ℚ × ℚ)) : List (Option ℚ) :=
  data.map (fun p => (processRow p.1 p.2).baseline)

/-- The fine-tuned column of one dimension. -/
def finetunedCol (data : List (ℚ × ℚ)) : List (Option ℚ) :=
  data.map (fun p => (processRow p.1 p.2).finetuned)

/-- The improvement column of one dimension. -/
def improvementCol (data : List (ℚ × ℚ)) : List (Option ℚ) :=
  data.map (fun p => (processRow p.1 p.2).improvement)

/-- `Series.dropna`: keep the present values. -/
def dropna (xs : List (Option ℚ)) : List ℚ := xs.filterMap id

/-- `Series.mean` (pandas skips missing values). -/
def colMean (xs : List (Option ℚ)) : ℚ := listMean (dropna xs)

/-- `(improvements > 0).sum()` of `calculate_core_metrics`. -/
def questionsImproved (xs : List (Option ℚ)) : ℕ :=
  (dropna xs).countP (fun x => decide (0 < x))

/-- `(improvements < 0).sum()`. -/
def questionsDeclined (xs : List (Option ℚ)) : ℕ :=
  (dropna xs).countP (fun x => decide (x < 0))

/-- `(improvements == 0).sum()`. -/
def questionsUnchanged (xs : List (Option ℚ)) : ℕ :=
  (dropna xs).countP (fun x => decide (x = 0))

/-- `len(improvements)` after `dropna`. -/
def total_valid (xs : List (Option ℚ)) : ℕ := (dropna xs).length

/-- `improvement_consistency = positive_improvements / total_valid * 100 if
total_valid > 0 else 0` of `calculate_core_metrics` (a percentage). -/
def improvement_consistency_pct (xs : List (Option ℚ)) : ℚ :=
  if 0 < total_valid xs then
    (questionsImproved xs : ℚ) / (total_valid xs : ℚ) * 100
  else 0

/-! ### Theorems -/

/-- C1: `calculate_entity_accuracy` is a recall metric: per category, an empty
reference set scores exactly `1`, a non-empty reference set with an empty
response set scores exactly `0`, and otherwise the score is
`|response ∩ reference| / |reference|` (denominator the reference-set
cardinality, never the union); every returned score lies in `[0, 1]`. -/
theorem C1_entity_accuracy_recall :
    (∀ response_set reference_set : Finset String,
      (reference_set = ∅ →
        entity_accuracy_cat response_set reference_set = 1) ∧
      (reference_set ≠ ∅ → response_set = ∅ →
        entity_accuracy_cat response_set reference_set = 0) ∧
      (reference_set ≠ ∅ → response_set ≠ ∅ →
        entity_accuracy_cat response_set reference_set =
          ((response_set ∩ reference_set).card : ℚ) /
            (reference_set.card : ℚ)) ∧
      0 ≤ entity_accuracy_cat response_set reference_set ∧
      entity_accuracy_cat response_set reference_set ≤ 1) ∧
    (∀ es rs : EntitySet,
      calculate_entity_accuracy es rs =
        ⟨entity_accuracy_cat es.phone_numbers rs.phone_numbers,
         entity_accuracy_cat es.organizations rs.organizations,
         entity_accuracy_cat es.procedures rs.procedures⟩) := by
  constructor
  · intro resp ref
    refine ⟨?_, ?_, ?_, ?_, ?_⟩
    · intro h; simp [entity_accuracy_cat, h]
    · intro h1 h2; simp [entity_accuracy_cat, h1, h2]
    · intro h1 h2; simp [entity_accuracy_cat, h1, h2]
    · unfold entity_accuracy_cat
      split_ifs
      · norm_num
      · norm_num
      · positivity
    · unfold entity_accuracy_cat
      split_ifs with h1 h2
      · norm_num
      · norm_num
      · apply div_le_one_of_le₀
        · exact_mod_cast Finset.card_le_card Finset.inter_subset_right
        · positivity
  · intro es rs; rfl

/-- Witness for C1 at a concrete input: an empty response set against a
non-empty reference set scores `0`. -/
theorem C1_witness :
    entity_accuracy_cat (∅ : Finset String) {"action fraud"} = 0 :=
  (C1_entity_accuracy_recall.1 ∅ {"action fraud"}).2.1 (by decide) rfl

/-- Counterexample to C2 as stated: with the `uk_knowledge` bucket empty but
the `general` bucket non-empty, `evaluate_response_alignment` returns the
all-zero scores with a warning instead of falling back to the `general`
bucket (which would have scored `1` everywhere here). -/
theorem C2_counterexample :
    evaluate_response_alignment (fun _ _ => (1 : ℚ))
        ⟨[], [], [], [], ["g"]⟩ "r" "uk_knowledge" =
      { best_match_score := 0, average_alignment := 0, source_coverage := 0,
        best_reference_idx := none, warning := true } ∧
    evaluate_response_alignment (fun _ _ => (1 : ℚ))
        ⟨[], [], [], [], ["g"]⟩ "r" "general" =
      { best_match_score := 1, average_alignment := 1, source_coverage := 1,
        best_reference_idx := some 0, warning := false } := by
  refine ⟨rfl, ?_⟩
  simp [evaluate_response_alignment, FraudCategories.getD, FraudCategories.find?,
    listMaxQ, argmaxFirst, AlignmentScores.mk.injEq, List.findIdx_cons]
  norm_num

/-- C2 as amended: `evaluate_response_alignment` falls back to the `general`
bucket only when the category key is absent from the bucket dictionary; for
a present key whose bucket is empty it returns all-zero scores together with
a warning (and no fallback); the warning is raised exactly on an empty
chosen bucket, and the function is total (never a fatal error). -/
theorem C2_alignment_fallback :
    (∀ (sim : String → String → ℚ) (fc : FraudCategories)
        (response key : String), fc.find? key = none →
      evaluate_response_alignment sim fc response key =
        evaluate_response_alignment sim fc response "general") ∧
    (∀ (sim : String → String → ℚ) (fc : FraudCategories)
        (response key : String), fc.getD key = [] →
      evaluate_response_alignment sim fc response key =
        { best_match_score := 0, average_alignment := 0, source_coverage := 0,
          best_reference_idx := none, warning := true }) ∧
    (∀ (sim : String → String → ℚ) (fc : FraudCategories)
        (response key : String),
      (evaluate_response_alignment sim fc response key).warning = true ↔
        fc.getD key = []) := by
  refine ⟨?_, ?_, ?_⟩
  · intro sim fc response key h
    have hk : fc.getD key = fc.general := by
      unfold FraudCategories.getD; rw [h]; rfl
    have hg : fc.getD "general" = fc.general := rfl
    unfold evaluate_response_alignment
    rw [hk, hg]
  · intro sim fc response key h
    unfold evaluate_response_alignment
    rw [h]
    rfl
  · intro sim fc response key
    unfold evaluate_response_alignment
    cases hl : fc.getD key with
    | nil => simp
    | cons a t => simp

/-- Witness for the amended C2: an unknown key is scored exactly as the
`general` key. -/
theorem C2_amended_witness :
    evaluate_response_alignment (fun _ _ => (1 : ℚ))
        ⟨["u"], ["c"], ["f"], ["p"], ["g"]⟩ "r" "unknown_key" =
      evaluate_response_alignment (fun _ _ => (1 : ℚ))
        ⟨["u"], ["c"], ["f"], ["p"], ["g"]⟩ "r" "general" :=
  C2_alignment_fallback.1 _ _ "r" "unknown_key" rfl

/-- C9: `determine_category_mapping` is total on strings, tests
case-insensitive substring rules in a fixed order with first match winning,
maps "UK-Specific Knowledge Assessment" to `uk_knowledge`, and maps every
label matching none of the rules to `general`. -/
theorem C9_category_mapping :
    determine_category_mapping "UK-Specific Knowledge Assessment" =
      "uk_knowledge" ∧
    (∀ label : String,
      strContains (strLower label) "uk-specific knowledge" = true →
      determine_category_mapping label = "uk_knowledge") ∧
    (∀ label : String,
      strContains (strLower label) "uk-specific knowledge" = false →
      strContains (strLower label) "conversational quality" = false →
      strContains (strLower label) "cyber fraud typology" = false →
      strContains (strLower label) "professional boundaries" = false →
      determine_category_mapping label = "general") ∧
    (∀ label : String,
      determine_category_mapping label = "uk_knowledge" ∨
      determine_category_mapping label = "conversational_quality" ∨
      determine_category_mapping label = "fraud_typology" ∨
      determine_category_mapping label = "professional_boundaries" ∨
      determine_category_mapping label = "general") := by
  refine ⟨by decide, ?_, ?_, ?_⟩
  · intro label h
    simp [determine_category_mapping, h]
  · intro label h1 h2 h3 h4
    simp [determine_category_mapping, h1, h2, h3, h4]
  · intro label
    unfold determine_category_mapping
    dsimp only
    split_ifs <;> simp

/-- Witness for C9: a label matching no rule maps to `general`, and a label
containing the UK rule maps to `uk_knowledge`. -/
theorem C9_witness :
    determine_category_mapping "Totally Different Label" = "general" ∧
    determine_category_mapping "intro to UK-Specific Knowledge" =
      "uk_knowledge" :=
  ⟨C9_category_mapping.2.2.1 "Totally Different Label"
      (by decide) (by decide) (by decide) (by decide),
    C9_category_mapping.2.1 "intro to UK-Specific Knowledge" (by decide)⟩

/-- Every weight in the merged domain-term table is nonnegative. -/
lemma all_weights_nonneg : ∀ p ∈ all_weights, (0 : ℚ) ≤ p.2 := by
  intro p hp
  fin_cases hp <;> norm_num

/-- The importance score is a sum of nonnegative contributions. -/
lemma importance_score_nonneg (text : String) : 0 ≤ importance_score text := by
  unfold importance_score
  apply List.sum_nonneg
  intro x hx
  simp only [List.mem_map] at hx
  obtain ⟨p, hp, rfl⟩ := hx
  split_ifs
  · exact all_weights_nonneg p hp
  · exact le_refl 0

/-- The multiplier is at least `1` on nonnegative importance scores. -/
lemma one_le_weight_multiplier {s : ℝ} (hs : 0 ≤ s) :
    1 ≤ weight_multiplier s := by
  unfold weight_multiplier
  have h := Real.log_nonneg (show (1 : ℝ) ≤ 1 + s * 0.1 by nlinarith)
  linarith

/-- C5: the `apply_domain_weights` multiplier `1 + ln(1 + importance * 0.1)`
is exactly `1` at importance `0`, at least `1` on every nonnegative
importance, monotonically non-decreasing, and the importance score (a sum of
weights of matched terms) is always nonnegative. -/
theorem C5_weight_multiplier :
    weight_multiplier 0 = 1 ∧
    (∀ s : ℝ, 0 ≤ s → 1 ≤ weight_multiplier s) ∧
    (∀ s t : ℝ, 0 ≤ s → s ≤ t → weight_multiplier s ≤ weight_multiplier t) ∧
    (∀ text : String, 0 ≤ importance_score text) := by
  refine ⟨?_, fun s hs => one_le_weight_multiplier hs, ?_, importance_score_nonneg⟩
  · simp [weight_multiplier]
  · intro s t hs hst
    unfold weight_multiplier
    have h1 : (0 : ℝ) < 1 + s * 0.1 := by nlinarith
    have h2 : (0 : ℝ) < 1 + t * 0.1 := by nlinarith
    have h3 := (Real.log_le_log_iff h1 h2).mpr (by nlinarith)
    linarith

/-- Witness for C5: the multiplier at importance `2` is at least `1`. -/
theorem C5_witness : 1 ≤ weight_multiplier 2 :=
  C5_weight_multiplier.2.1 2 (by norm_num)

/-- Bilinearity of the dot product under elementwise scaling. -/
lemma dotProd_smul_both {n : ℕ} (c d : ℝ) (u v : Fin n → ℝ) :
    dotProd (fun i => c * u i) (fun i => d * v i) = (c * d) * dotProd u v := by
  unfold dotProd
  rw [Finset.mul_sum]
  refine Finset.sum_congr rfl fun i _ => by ring

/-- The Euclidean norm scales by the absolute value of the scalar. -/
lemma vecNorm_smul {n : ℕ} (c : ℝ) (u : Fin n → ℝ) :
    vecNorm (fun i => c * u i) = |c| * vecNorm u := by
  unfold vecNorm
  have h : dotProd (fun i => c * u i) (fun i => c * u i) =
      (c ^ 2) * dotProd u u := by
    unfold dotProd
    rw [Finset.mul_sum]
    refine Finset.sum_congr rfl fun i _ => by ring
  rw [h, Real.sqrt_mul (sq_nonneg c), Real.sqrt_sq_eq_abs]

/-- Cosine similarity is invariant under separate positive rescaling of its
two arguments. -/
lemma cosine_similarity_smul {n : ℕ} (c d : ℝ) (hc : 0 < c) (hd : 0 < d)
    (u v : Fin n → ℝ) :
    cosine_similarity (fun i => c * u i) (fun i => d * v i) =
      cosine_similarity u v := by
  unfold cosine_similarity
  rw [dotProd_smul_both, vecNorm_smul, vecNorm_smul, abs_of_pos hc,
    abs_of_pos hd,
    show c * vecNorm u * (d * vecNorm v) = c * d * (vecNorm u * vecNorm v)
      from by ring]
  exact mul_div_mul_left _ _ (ne_of_gt (mul_pos hc hd))

/-- C3: domain weighting is vacuous for semantic similarity — for any two
texts with non-zero base embeddings, the cosine similarity of the
domain-weighted embeddings equals, in exact real arithmetic, the cosine
similarity of the unweighted base embeddings. -/
theorem C3_domain_weighting_vacuous {n : ℕ} (encode : String → Fin n → ℝ)
    (t1 t2 : String) (_h1 : encode t1 ≠ 0) (_h2 : encode t2 ≠ 0) :
    cosine_similarity (apply_domain_weights encode t1)
        (apply_domain_weights encode t2) =
      cosine_similarity (encode t1) (encode t2) := by
  have hp : ∀ t : String,
      0 < weight_multiplier ((importance_score t : ℚ) : ℝ) := fun t =>
    lt_of_lt_of_le one_pos
      (one_le_weight_multiplier (by exact_mod_cast importance_score_nonneg t))
  unfold apply_domain_weights
  exact cosine_similarity_smul _ _ (hp t1) (hp t2) (encode t1) (encode t2)

/-- Witness for C3 at a concrete embedding model with non-zero embeddings. -/
theorem C3_witness :
    cosine_similarity
        (apply_domain_weights (n := 1) (fun _ _ => 1) "a")
        (apply_domain_weights (n := 1) (fun _ _ => 1) "b") =
      cosine_similarity (n := 1) (fun _ => 1) (fun _ => 1) :=
  C3_domain_weighting_vacuous (n := 1) (fun _ _ => 1) "a" "b"
    (fun h => one_ne_zero (congrFun h 0))
    (fun h => one_ne_zero (congrFun h 0))

/-- C4: for every per-question result of each of the three evaluators and
every metric axis — best-match and average-alignment (standard cosine
evaluator), semantic, entity and composite (domain-weighted evaluator), and
the manual-grade dimensions — the stored improvement field equals the
fine-tuned score minus the baseline score exactly, with no rounding and no
clamping (for the manual grades, whenever both scores are present). -/
theorem C4_improvement_exact :
    (∀ (sim : String → String → ℚ) (fc : FraudCategories) (item : EvalItem),
      (evaluateItemStandard sim fc item).best_match_improvement =
          (evaluateItemStandard sim fc item).finetuned_best_match -
            (evaluateItemStandard sim fc item).baseline_best_match ∧
      (evaluateItemStandard sim fc item).avg_alignment_improvement =
          (evaluateItemStandard sim fc item).finetuned_avg_alignment -
            (evaluateItemStandard sim fc item).baseline_avg_alignment) ∧
    (∀ (n : ℕ) (encode : String → Fin n → ℝ)
        (extractPhones : String → Finset String) (bm fm ref : String),
      (evaluate_response_pair encode extractPhones bm fm ref).improvement =
          (evaluate_response_pair encode extractPhones bm fm ref).finetuned_composite -
            (evaluate_response_pair encode extractPhones bm fm ref).baseline_composite ∧
      (evaluate_response_pair encode extractPhones bm fm ref).semantic_improvement =
          (evaluate_response_pair encode extractPhones bm fm ref).finetuned_semantic -
            (evaluate_response_pair encode extractPhones bm fm ref).baseline_semantic ∧
      (evaluate_response_pair encode extractPhones bm fm ref).entity_improvement =
          (evaluate_response_pair encode extractPhones bm fm ref).finetuned_entity -
            (evaluate_response_pair encode extractPhones bm fm ref).baseline_entity) ∧
    (∀ b f : ℚ,
      (processRow b f).improvement =
        Option.map₂ (fun x y => x - y) (processRow b f).finetuned
          (processRow b f).baseline) := by
  refine ⟨fun sim fc item => ⟨rfl, rfl⟩,
    fun n encode extractPhones bm fm ref => ⟨rfl, rfl, rfl⟩, ?_⟩
  intro b f
  by_cases h : b = 0 ∧ f = 0 <;> simp [processRow, h, Option.map₂]

/-- Counterexample to C6 as stated: the code classifies `|d| = 0.1` as
"small", not as a fourth class "negligible" — the classifier has only the
three classes small / medium / large, with strict `>` thresholds. -/
theorem C6_counterexample :
    effect_size_label 0.1 = "small" ∧ "small" ≠ "negligible" := by
  constructor
  · have habs : |(0.1 : ℝ)| = 0.1 := abs_of_pos (by norm_num)
    simp only [effect_size_label, habs]
    norm_num
  · decide

/-- The population variance is nonnegative. -/
lemma listVarPop_nonneg (xs : List ℚ) : 0 ≤ listVarPop xs := by
  unfold listVarPop
  apply div_nonneg
  · apply List.sum_nonneg
    intro x hx
    simp only [List.mem_map] at hx
    obtain ⟨y, hy, rfl⟩ := hx
    positivity
  · positivity

/-- The pooled standard deviation squared out: `std² = variance` exactly. -/
lemma pooled_std_eq (bm fm : List ℚ) :
    pooled_std bm fm =
      Real.sqrt (((listVarPop bm + listVarPop fm) / 2 : ℚ) : ℝ) := by
  unfold pooled_std listStd
  rw [Real.sq_sqrt (by exact_mod_cast listVarPop_nonneg bm),
    Real.sq_sqrt (by exact_mod_cast listVarPop_nonneg fm)]
  congr 1
  push_cast
  ring

/-- C6 as amended: Cohen's d is `(mean(finetuned) - mean(baseline)) /
sqrt((std_baseline² + std_finetuned²)/2)` and its absolute value is
classified into exactly three classes — "small" when `|d| ≤ 0.5`, "medium"
when `0.5 < |d| ≤ 0.8`, "large" when `|d| > 0.8` (there is no "negligible"
class and `|d| = 0.8` is "medium"); whenever the pooled standard deviation
is positive the sign of d equals the sign of
`mean(finetuned) - mean(baseline)`. -/
theorem C6_cohens_d :
    (∀ d : ℝ,
      (|d| > 0.8 → effect_size_label d = "large") ∧
      (¬ |d| > 0.8 → |d| > 0.5 → effect_size_label d = "medium") ∧
      (¬ |d| > 0.8 → ¬ |d| > 0.5 → effect_size_label d = "small") ∧
      (effect_size_label d = "large" ∨ effect_size_label d = "medium" ∨
        effect_size_label d = "small")) ∧
    (∀ bm fm : List ℚ, 0 < pooled_std bm fm →
      (0 < cohens_d bm fm ↔ listMean bm < listMean fm) ∧
      (cohens_d bm fm < 0 ↔ listMean fm < listMean bm) ∧
      (cohens_d bm fm = 0 ↔ listMean fm = listMean bm)) := by
  constructor
  · intro d
    refine ⟨?_, ?_, ?_, ?_⟩
    · intro h; simp [effect_size_label, h]
    · intro h1 h2; simp [effect_size_label, h1, h2]
    · intro h1 h2; simp [effect_size_label, h1, h2]
    · unfold effect_size_label; split_ifs <;> simp
  · intro bm fm hpool
    unfold cohens_d
    refine ⟨?_, ?_, ?_⟩
    · rw [lt_div_iff₀ hpool, zero_mul, Rat.cast_pos, sub_pos]
    · rw [div_lt_iff₀ hpool, zero_mul, Rat.cast_lt_zero, sub_neg]
    · rw [div_eq_zero_iff, or_iff_left (ne_of_gt hpool), Rat.cast_eq_zero,
        sub_eq_zero]

/-- Witness for the amended C6: on concrete score lists with positive pooled
standard deviation and a higher fine-tuned mean, Cohen's d is positive. -/
theorem C6_witness : 0 < cohens_d [0, 2] [3, 5] := by
  have hvar : ((listVarPop [0, 2] + listVarPop [3, 5]) / 2 : ℚ) = 1 := by
    norm_num [listVarPop, listMean]
  have hpool : 0 < pooled_std [0, 2] [3, 5] := by
    rw [pooled_std_eq, hvar, Rat.cast_one, Real.sqrt_one]
    norm_num
  exact ((C6_cohens_d.2 [0, 2] [3, 5] hpool).1).mpr (by norm_num [listMean])

/-- Counterexample to C7 as stated: the manual-grading analyzer stores the
consistency as a percentage — on improvements `[1, -1]` it stores `50`,
not the claimed ratio `1/2`. -/
theorem C7_counterexample :
    improvement_consistency_pct [some 1, some (-1)] = 50 ∧
    (50 : ℚ) ≠ 1 / 2 := by
  have hq : questionsImproved [some 1, some (-1)] = 1 := rfl
  have ht : total_valid [some 1, some (-1)] = 2 := rfl
  constructor
  · unfold improvement_consistency_pct
    rw [hq, ht]
    norm_num
  · norm_num

/-- Sign trichotomy for the three improvement counters. -/
lemma countP_sign_trichotomy (zs : List ℚ) :
    zs.countP (fun x => decide (0 < x)) + zs.countP (fun x => decide (x < 0)) +
      zs.countP (fun x => decide (x = 0)) = zs.length := by
  induction zs with
  | nil => rfl
  | cons a t ih =>
    simp only [List.countP_cons, List.length_cons]
    rcases lt_trichotomy 0 a with h | h | h
    · have h1 : decide (0 < a) = true := decide_eq_true h
      have h2 : decide (a < 0) = false := decide_eq_false (not_lt.mpr h.le)
      have h3 : decide (a = 0) = false := decide_eq_false (ne_of_gt h)
      rw [h1, h2, h3]
      simp only [Bool.false_eq_true, if_false, if_true]
      omega
    · have h1 : decide (0 < a) = false := decide_eq_false (by rw [← h]; exact lt_irrefl 0)
      have h2 : decide (a < 0) = false := decide_eq_false (by rw [← h]; exact lt_irrefl 0)
      have h3 : decide (a = 0) = true := decide_eq_true h.symm
      rw [h1, h2, h3]
      simp only [Bool.false_eq_true, if_false, if_true]
      omega
    · have h1 : decide (0 < a) = false := decide_eq_false (not_lt.mpr h.le)
      have h2 : decide (a < 0) = true := decide_eq_true h
      have h3 : decide (a = 0) = false := decide_eq_false (ne_of_lt h)
      rw [h1, h2, h3]
      simp only [Bool.false_eq_true, if_false, if_true]
      omega

/-- C7 as amended: in the domain-weighted evaluator, `improvement_consistency
× total` equals the strict-improvement count (so the consistency is the
ratio of improvements over the valid count); in the manual-grading analyzer
ties count as neither improved nor declined, `questions_improved +
questions_declined + questions_unchanged = total_valid`, and the stored
`improvement_consistency_pct` is `100 ×` that same ratio. -/
theorem C7_consistency :
    (∀ xs : List ℚ, xs ≠ [] →
      improvement_consistency xs * (xs.length : ℚ) =
        (xs.countP (fun x => decide (0 < x)) : ℚ)) ∧
    (∀ ys : List (Option ℚ),
      questionsImproved ys + questionsDeclined ys + questionsUnchanged ys =
        total_valid ys) ∧
    (∀ ys : List (Option ℚ), 0 < total_valid ys →
      improvement_consistency_pct ys =
        100 * improvement_consistency (dropna ys)) := by
  refine ⟨?_, fun ys => countP_sign_trichotomy (dropna ys), ?_⟩
  · intro xs hxs
    unfold improvement_consistency
    have hlen : ((xs.length : ℚ)) ≠ 0 :=
      Nat.cast_ne_zero.mpr (List.length_pos.mpr hxs).ne'
    exact div_mul_cancel₀ _ hlen
  · intro ys h
    unfold improvement_consistency_pct
    rw [if_pos h]
    unfold improvement_consistency questionsImproved total_valid
    ring

/-- Witness for the amended C7 on a concrete improvement column. -/
theorem C7_witness :
    improvement_consistency_pct [some 1, some (-1), some 0] =
      100 * improvement_consistency (dropna [some 1, some (-1), some 0]) :=
  C7_consistency.2.2 [some 1, some (-1), some 0]
    (by rw [show total_valid [some 1, some (-1), some 0] = 3 from rfl]; norm_num)

/-- A score pair is non-sentinel when not both entries are `0`. -/
def nonSentinel (p : ℚ × ℚ) : Bool := decide (¬(p.1 = 0 ∧ p.2 = 0))

/-- The baseline column, after dropping missing values, is exactly the
baseline score of every non-sentinel pair. -/
lemma dropna_baselineCol (data : List (ℚ × ℚ)) :
    dropna (baselineCol data) = (data.filter nonSentinel).map Prod.fst := by
  induction data with
  | nil => rfl
  | cons p t ih =>
    by_cases h : p.1 = 0 ∧ p.2 = 0
    · have h1 : (processRow p.1 p.2).baseline = none := by
        simp [processRow, if_pos h]
      have h2 : nonSentinel p = false := by simp [nonSentinel, h]
      simp [baselineCol, dropna, List.filter_cons, h1, h2]
      simpa [baselineCol, dropna] using ih
    · have h1 : (processRow p.1 p.2).baseline = some p.1 := by
        simp [processRow, if_neg h]
      have h2 : nonSentinel p = true := by simp [nonSentinel, h]
      simp [baselineCol, dropna, List.filter_cons, h1, h2]
      simpa [baselineCol, dropna] using ih

/-- The fine-tuned column, after dropping missing values. -/
lemma dropna_finetunedCol (data : List (ℚ × ℚ)) :
    dropna (finetunedCol data) = (data.filter nonSentinel).map Prod.snd := by
  induction data with
  | nil => rfl
  | cons p t ih =>
    by_cases h : p.1 = 0 ∧ p.2 = 0
    · have h1 : (processRow p.1 p.2).finetuned = none := by
        simp [processRow, if_pos h]
      have h2 : nonSentinel p = false := by simp [nonSentinel, h]
      simp [finetunedCol, dropna, List.filter_cons, h1, h2]
      simpa [finetunedCol, dropna] using ih
    · have h1 : (processRow p.1 p.2).finetuned = some p.2 := by
        simp [processRow, if_neg h]
      have h2 : nonSentinel p = true := by simp [nonSentinel, h]
      simp [finetunedCol, dropna, List.filter_cons, h1, h2]
      simpa [finetunedCol, dropna] using ih

/-- The improvement column, after dropping missing values. -/
lemma dropna_improvementCol (data : List (ℚ × ℚ)) :
    dropna (improvementCol data) =
      (data.filter nonSentinel).map (fun p => p.2 - p.1) := by
  induction data with
  | nil => rfl
  | cons p t ih =>
    by_cases h : p.1 = 0 ∧ p.2 = 0
    · have h1 : (processRow p.1 p.2).improvement = none := by
        simp [processRow, if_pos h]
      have h2 : nonSentinel p = false := by simp [nonSentinel, h]
      simp [improvementCol, dropna, List.filter_cons, h1, h2]
      simpa [improvementCol, dropna] using ih
    · have h1 : (processRow p.1 p.2).improvement = some (p.2 - p.1) := by
        simp [processRow, if_neg h]
      have h2 : nonSentinel p = true := by simp [nonSentinel, h]
      simp [improvementCol, dropna, List.filter_cons, h1, h2]
      simpa [improvementCol, dropna] using ih

/-- C8: in the manual-grading analysis every question whose baseline and
fine-tuned scores are both the sentinel `0` becomes missing and is excluded
from the dimension's mean, from the improvement counts and from the
consistency denominator: every aggregate is computed over exactly the
non-sentinel pairs, and `total_questions` counts only those. -/
theorem C8_sentinel_exclusion :
    ∀ data : List (ℚ × ℚ),
      dropna (baselineCol data) = (data.filter nonSentinel).map Prod.fst ∧
      dropna (finetunedCol data) = (data.filter nonSentinel).map Prod.snd ∧
      dropna (improvementCol data) =
        (data.filter nonSentinel).map (fun p => p.2 - p.1) ∧
      colMean (baselineCol data) =
        listMean ((data.filter nonSentinel).map Prod.fst) ∧
      colMean (finetunedCol data) =
        listMean ((data.filter nonSentinel).map Prod.snd) ∧
      total_valid (improvementCol data) = (data.filter nonSentinel).length ∧
      questionsImproved (improvementCol data) =
        (data.filter nonSentinel).countP (fun p => decide (0 < p.2 - p.1)) ∧
      questionsDeclined (improvementCol data) =
        (data.filter nonSentinel).countP (fun p => decide (p.2 - p.1 < 0)) ∧
      questionsUnchanged (improvementCol data) =
        (data.filter nonSentinel).countP (fun p => decide (p.2 - p.1 = 0)) := by
  intro data
  have hb := dropna_baselineCol data
  have hf := dropna_finetunedCol data
  have hi := dropna_improvementCol data
  refine ⟨hb, hf, hi, ?_, ?_, ?_, ?_, ?_, ?_⟩
  · unfold colMean; rw [hb]
  · unfold colMean; rw [hf]
  · unfold total_valid; rw [hi, List.length_map]
  · unfold questionsImproved; rw [hi, List.countP_map]; rfl
  · unfold questionsDeclined; rw [hi, List.countP_map]; rfl
  · unfold questionsUnchanged; rw [hi, List.countP_map]; rfl

/-- An appended reference whose similarity does not strictly exceed the
running best score leaves the fold state unchanged. -/
lemma findBestAux_append_no_improve {n : ℕ} (encode : String → Fin n → ℝ)
    (q : String) (gt : List QAPair) (b : QAPair)
    (h : cosine_similarity (encode q) (encode b.instruction) ≤
      (findBestAux encode q gt).2) :
    findBestAux encode q (gt ++ [b]) = findBestAux encode q gt := by
  unfold findBestAux at h ⊢
  rw [List.foldl_append]
  simp only [List.foldl_cons, List.foldl_nil]
  rw [if_neg (not_lt.mpr h)]

/-- When no reference instruction has similarity strictly greater than `0`,
the fold never leaves its initial state `("", 0)`. -/
lemma findBestAux_all_nonpos {n : ℕ} (encode : String → Fin n → ℝ)
    (q : String) (gt : List QAPair)
    (h : ∀ item ∈ gt,
      cosine_similarity (encode q) (encode item.instruction) ≤ 0) :
    findBestAux encode q gt = ("", 0) := by
  induction gt with
  | nil => rfl
  | cons a t ih =>
    have ha := h a (List.mem_cons_self a t)
    have hstep : findBestAux encode q (a :: t) = findBestAux encode q t := by
      unfold findBestAux
      simp only [List.foldl_cons]
      rw [if_neg (not_lt.mpr ha)]
    rw [hstep]
    exact ih (fun item hm => h item (List.mem_cons_of_mem a hm))

/-- C10: `find_best_reference_match` compares with strict `>` from an
initial score of `0`, so a tie keeps the first-encountered reference;
whenever no reference instruction has similarity strictly greater than `0`
(in particular for an empty ground-truth list) it returns the empty string;
and `run_evaluation` then skips such questions entirely — its result list
is exactly the evaluated records of the questions with a non-empty best
reference, so a skipped question contributes no record to any summary
statistic. -/
theorem C10_reference_matching :
    (∀ (n : ℕ) (encode : String → Fin n → ℝ) (q : String)
        (gt : List QAPair) (b : QAPair),
      cosine_similarity (encode q) (encode b.instruction) ≤
          (findBestAux encode q gt).2 →
      find_best_reference_match encode q (gt ++ [b]) =
        find_best_reference_match encode q gt) ∧
    (∀ (n : ℕ) (encode : String → Fin n → ℝ) (q : String) (gt : List QAPair),
      (∀ item ∈ gt,
        cosine_similarity (encode q) (encode item.instruction) ≤ 0) →
      find_best_reference_match encode q gt = "") ∧
    (∀ (n : ℕ) (encode : String → Fin n → ℝ)
        (extractPhones : String → Finset String)
        (evaluation_data : List EvalItem) (ground_truth : List QAPair),
      run_evaluation encode extractPhones evaluation_data ground_truth =
        (evaluation_data.filter (fun it =>
            decide (find_best_reference_match encode it.question ground_truth ≠
              ""))).map
          (fun it => mkResultRecord encode extractPhones it
            (find_best_reference_match encode it.question ground_truth))) := by
  refine ⟨?_, ?_, ?_⟩
  · intro n encode q gt b h
    unfold find_best_reference_match
    rw [findBestAux_append_no_improve encode q gt b h]
  · intro n encode q gt h
    unfold find_best_reference_match
    rw [findBestAux_all_nonpos encode q gt h]
  · intro n encode extractPhones evaluation_data ground_truth
    induction evaluation_data with
    | nil => rfl
    | cons it rest ih =>
      by_cases h : find_best_reference_match encode it.question ground_truth = ""
      · simp [run_evaluation, h, List.filter_cons, ih]
      · simp [run_evaluation, h, List.filter_cons, ih]

/-- Witness for C10: with an embedding model sending every text to the zero
vector (all similarities `0`), the best reference is the empty string. -/
theorem C10_witness :
    find_best_reference_match (n := 1) (fun _ _ => 0) "q"
      [⟨"how do i report fraud", "call action fraud"⟩] = "" := by
  apply C10_reference_matching.2.1
  intro item hm
  simp [cosine_similarity, dotProd]

end CyberFraudEval
